import Mathlib

/-!
Verification of `database_tools.py`: a shallow embedding of the module's four
public functions (`init_database`, `execute_sql_query`, `get_table_schema`,
`text_to_sql`, `get_database_info`) over an explicit model of the SQLite
engine as used by the module.

The Python code drives the `sqlite3` library through a small, fixed set of
statements (four CREATE TABLE literals, four seed INSERTs, a COUNT, the
sqlite_master catalog query, `PRAGMA table_info(...)`, and
`SELECT * FROM <t> LIMIT 3`), plus arbitrary caller-supplied statements in
`execute_sql_query`.  We model the engine in two ways:

* an abstract `Engine` record (one `exec` per `cursor.execute`, one
  `execMany` per `cursor.executemany`), over which the control-flow theorems
  about the Python functions are proved; and
* a concrete engine `sqliteE` reproducing real SQLite behaviour on the
  statements the module issues (behaviour and error texts checked against
  SQLite: the first CREATE TABLE literal declares the column name `Area`
  twice — `Area Abbreviation INTEGER` parses as column `Area` of type
  `Abbreviation INTEGER` — so on a database lacking a `customers` table it
  raises `duplicate column name: Area`; the `sales` and `unit` CREATEs name
  undeclared columns in FOREIGN KEY clauses; `CREATE TABLE IF NOT EXISTS`
  is a silent no-op when the table already exists; `cursor.rowcount` is -1
  after CREATE and SELECT; a table with a numeric name is listed by the
  catalog and accepted by PRAGMA table_info but rejected by an unquoted
  SELECT with `near "...": syntax error`; a file that is not a database
  yields `file is not a database` on every statement).

Exceptions: `PyExc.sqlite` stands for `sqlite3.Error` and its subclasses
(which is everything the sqlite3 binding raises for a string statement,
including ProgrammingError for NUL characters and multiple statements);
`PyExc.other` stands for any other Python exception.  Fallible calls return
`DB × Except PyExc α`: the database state is threaded even when an
exception escapes, mirroring on-disk side effects.  `conn.commit()` is
modelled by adopting the engine's post-state; no modelled SELECT writes, so
close-without-commit and commit coincide on every modelled trace.
-/

namespace DatabaseTools

/-- A SQLite value: integer, real (modelled as a rational), text or NULL. -/
inductive Val where
  | int (n : Int)
  | real (q : Rat)
  | str (s : String)
  | null
deriving DecidableEq

/-- One result row, as the ordered column-name/value pairs of the cursor. -/
abbrev Row := List (String × Val)

/-- A Python exception: either a `sqlite3.Error` (any subclass) or another
exception class. -/
inductive PyExc where
  | sqlite (msg : String)
  | other (msg : String)
deriving DecidableEq

/-- Column metadata as reported by `PRAGMA table_info` and re-packaged by
`get_table_schema` into `{"name", "type", "notnull", "pk"}`. -/
structure Column where
  name : String
  type : String
  notnull : Bool
  pk : Bool
deriving DecidableEq

/-- One table of the database file: its name, columns, and stored rows. -/
structure Table where
  name : String
  cols : List Column
  rows : List Row
deriving DecidableEq

/-- The state of the on-disk database file at `DB_PATH`:
whether the file exists, whether it exists but is not a SQLite database,
and the tables it holds. -/
structure DB where
  fileExists : Bool
  corrupt : Bool
  tables : List Table
deriving DecidableEq

def DB.table? (db : DB) (t : String) : Option Table :=
  db.tables.find? (fun tb => tb.name == t)

def DB.hasTable (db : DB) (t : String) : Bool :=
  (db.table? t).isSome

/-- The sqlite3 library as driven by the module: `exec` is one
`cursor.execute(q)` (returning the fetched rows and `cursor.rowcount`),
`execMany` is one `cursor.executemany(q, params)` (returning
`cursor.rowcount`). -/
structure Engine where
  exec : DB → String → DB × Except PyExc (List Row × Int)
  execMany : DB → String → List (List Val) → DB × Except PyExc Int

/-- Python `str.strip` whitespace set (space, tab, newline, carriage return,
vertical tab, form feed). -/
def isPySpace (c : Char) : Bool :=
  c = ' ' || c = '\t' || c = '\n' || c = '\r' || c = Char.ofNat 11 || c = Char.ofNat 12

/-- Python `str.strip()`. -/
def pyStrip (s : String) : String :=
  String.mk (((s.toList.dropWhile isPySpace).reverse.dropWhile isPySpace).reverse)

/-- Python `str.upper()` (ASCII fragment, which is all the SELECT check needs). -/
def pyUpper (s : String) : String :=
  String.mk (s.toList.map Char.toUpper)

/-- Does the first list begin with the second? -/
def charsBegin : List Char → List Char → Bool
  | _, [] => true
  | [], _ :: _ => false
  | c :: cs, d :: ds => c == d && charsBegin cs ds

/-- Python `s.startswith(p)`. -/
def pyStartswith (s p : String) : Bool :=
  charsBegin s.toList p.toList

/-- The read/write classification of `execute_sql_query`:
`query.strip().upper().startswith("SELECT")`. -/
def isSelectQuery (q : String) : Bool :=
  pyStartswith (pyUpper (pyStrip q)) "SELECT"

/-- One step of the dict comprehension `{k: row[k] for k in row.keys()}`:
a repeated column name keeps its first occurrence (both `row[k]` and dict
insertion order resolve to the first column of that name). -/
def dictIns (acc : Row) (p : String × Val) : Row :=
  if acc.any (fun q => q.1 == p.1) then acc else acc ++ [p]

/-- The dict comprehension `{k: row[k] for k in row.keys()}` applied to one
`sqlite3.Row`. -/
def dictOfRow (r : Row) : Row :=
  r.foldl dictIns []

/-- `str(e)` for a caught exception. -/
def excMsg : PyExc → String
  | .sqlite m => m
  | .other m => m

/-- `execute_sql_query(query)`: connect (creating the file), execute, then
return fetched rows for a SELECT-classified statement or
`[{"affected_rows": cursor.rowcount}]` (after commit) otherwise;
`except sqlite3.Error` converts engine errors to `[{"error": str(e)}]`,
while any other exception propagates. -/
def execute_sql_query (E : Engine) (db : DB) (query : String) :
    DB × Except PyExc (List Row) :=
  let db := { db with fileExists := true }
  match E.exec db query with
  | (db', .ok (rows, rc)) =>
      if isSelectQuery query then
        (db', .ok (rows.map dictOfRow))
      else
        (db', .ok [[("affected_rows", Val.int rc)]])
  | (db', .error (.sqlite m)) => (db', .ok [[("error", Val.str m)]])
  | (db', .error e) => (db', .error e)

/-! The fixed SQL literals of `init_database` (whitespace normalised; the
token content is exactly that of the source, including the defects: the
first CREATE declares `Area` twice — `Area Abbreviation INTEGER PRIMARY KEY`
is column `Area` of type `Abbreviation INTEGER` — and the `sales`/`unit`
CREATEs name undeclared columns `area`/`element` in FOREIGN KEY clauses). -/

def sqlCreateCustomers : String :=
  "CREATE TABLE IF NOT EXISTS customers ( Area Abbreviation INTEGER PRIMARY KEY, Area TEXT NOT NULL, Item TEXT UNIQUE, Unit TEXT, Year TEXT )"

def sqlCreateProducts : String :=
  "CREATE TABLE IF NOT EXISTS products ( element INTEGER PRIMARY KEY, unit TEXT NOT NULL, year INTEGER DEFAULT 0 )"

def sqlCreateSales : String :=
  "CREATE TABLE IF NOT EXISTS sales ( unit INTEGER PRIMARY KEY, year INTEGER, unit_date TEXT NOT NULL, total_amount REAL NOT NULL, FOREIGN KEY (area) REFERENCES customers (area) )"

def sqlCreateUnit : String :=
  "CREATE TABLE IF NOT EXISTS unit ( unit INTEGER PRIMARY KEY, year INTEGER, latitute INTEGER, longitude INTEGER NOT NULL, total_per_unit REAL NOT NULL, FOREIGN KEY (unit) REFERENCES sales (unit), FOREIGN KEY (element) REFERENCES products (element) )"

def sqlCountCustomers : String :=
  "SELECT COUNT(*) FROM customers"

def sqlInsertCustomers : String :=
  "INSERT INTO customers (name, email, phone, address) VALUES (?, ?, ?, ?)"

def sqlInsertProducts : String :=
  "INSERT INTO products (name, description, price, stock_quantity) VALUES (?, ?, ?, ?)"

def sqlInsertSales : String :=
  "INSERT INTO sales (customer_id, sale_date, total_amount) VALUES (?, ?, ?)"

def sqlInsertUnitItems : String :=
  "INSERT INTO unit_items (Area, unit, item, year) VALUES (?, ?, ?, ?)"

/-- The seed customers literal. -/
def seedCustomers : List (List Val) :=
  [[.str "John Doe", .str "john@example.com", .str "555-1234", .str "123 Main St"],
   [.str "Jane Smith", .str "jane@example.com", .str "555-5678", .str "456 Oak Ave"],
   [.str "Bob Johnson", .str "bob@example.com", .str "555-9012", .str "789 Pine Rd"],
   [.str "Alice Brown", .str "alice@example.com", .str "555-3456", .str "321 Elm St"],
   [.str "Charlie Davis", .str "charlie@example.com", .str "555-7890", .str "654 Maple Dr"]]

/-- The seed products literal. -/
def seedProducts : List (List Val) :=
  [[.str "Laptop", .str "High-performance laptop", .real 1200, .int 10],
   [.str "Smartphone", .str "Latest model smartphone", .real 800, .int 15],
   [.str "Tablet", .str "10-inch tablet", .real 300, .int 20],
   [.str "Headphones", .str "Noise-cancelling headphones", .real 150, .int 30],
   [.str "Monitor", .str "27-inch 4K monitor", .real 350, .int 8]]

/-- The seed sales literal. -/
def seedSales : List (List Val) :=
  [[.int 1, .str "2013-01-15", .real 3200],
   [.int 2, .str "2003-01-20", .real 750],
   [.int 3, .str "2093-02-05", .real 200],
   [.int 4, .str "2083-02-10", .real 600],
   [.int 5, .str "2073-03-01", .real 2550],
   [.int 1, .str "2063-03-15", .real 550],
   [.int 2, .str "2053-04-02", .real 650]]

/-- The seed unit-items literal. -/
def seedUnitItems : List (List Val) :=
  [[.int 1, .int 1, .int 1, .real 3200],
   [.int 2, .int 2, .int 1, .real 600],
   [.int 2, .int 4, .int 1, .real 250],
   [.int 3, .int 3, .int 1, .real 400],
   [.int 4, .int 4, .int 2, .real 550],
   [.int 4, .int 3, .int 1, .real 500],
   [.int 5, .int 1, .int 1, .real 2200],
   [.int 5, .int 4, .int 1, .real 450],
   [.int 5, .int 5, .int 1, .real 500],
   [.int 6, .int 4, .int 1, .real 250],
   [.int 7, .int 5, .int 1, .real 350]]

/-- `init_database()`: connect (creating the file if absent), issue the four
CREATE TABLE statements, and if `SELECT COUNT(*) FROM customers` reports an
empty table, bulk-insert the four seed literals; commit; return the
confirmation string.  Nothing here is guarded: any exception from the
engine propagates to the caller, with the database left in the state
reached so far. -/
def init_database (E : Engine) (db : DB) : DB × Except PyExc String :=
  let db := { db with fileExists := true }
  match E.exec db sqlCreateCustomers with
  | (db, .error e) => (db, .error e)
  | (db, .ok _) =>
  match E.exec db sqlCreateProducts with
  | (db, .error e) => (db, .error e)
  | (db, .ok _) =>
  match E.exec db sqlCreateSales with
  | (db, .error e) => (db, .error e)
  | (db, .ok _) =>
  match E.exec db sqlCreateUnit with
  | (db, .error e) => (db, .error e)
  | (db, .ok _) =>
  match E.exec db sqlCountCustomers with
  | (db, .error e) => (db, .error e)
  | (db, .ok (cntRows, _)) =>
  -- `cursor.execute(...).fetchone()[0] == 0`
  match cntRows with
  | [] => (db, .error (.other "TypeError: NoneType object is not subscriptable"))
  | row :: _ =>
    if (row.head?.map (fun p => p.2)) = some (Val.int 0) then
      match E.execMany db sqlInsertCustomers seedCustomers with
      | (db, .error e) => (db, .error e)
      | (db, .ok _) =>
      match E.execMany db sqlInsertProducts seedProducts with
      | (db, .error e) => (db, .error e)
      | (db, .ok _) =>
      match E.execMany db sqlInsertSales seedSales with
      | (db, .error e) => (db, .error e)
      | (db, .ok _) =>
      match E.execMany db sqlInsertUnitItems seedUnitItems with
      | (db, .error e) => (db, .error e)
      | (db, .ok _) => (db, .ok "Database initialized with sample data.")
    else
      (db, .ok "Database initialized with sample data.")

/-- The catalog query of `get_table_schema`. -/
def sqlMaster : String :=
  "SELECT name FROM sqlite_master WHERE type=\x27table\x27"

/-- The f-string `f"PRAGMA table_info({table_name})"`. -/
def pragmaSQL (t : String) : String :=
  "PRAGMA table_info(" ++ t ++ ")"

/-- The f-string `f"SELECT * FROM {table_name} LIMIT 3"`. -/
def sampleSQL (t : String) : String :=
  "SELECT * FROM " ++ t ++ " LIMIT 3"

/-- Tuple subscript `row[i]` on a cursor tuple. -/
def rowAt (r : Row) (i : Nat) : Val :=
  ((r.get? i).map (fun p => p.2)).getD Val.null

/-- The string content of a value (catalog names are always text). -/
def valAsStr : Val → String
  | .str s => s
  | _ => ""

/-- Python `bool(...)` on a SQLite value. -/
def valTruthy : Val → Bool
  | .int n => !(n = 0)
  | .real q => !(q = 0)
  | .str s => !(s = "")
  | .null => false

/-- The descriptor `{"name": col[1], "type": col[2], "notnull": bool(col[3]),
"pk": bool(col[5])}` built from one `PRAGMA table_info` tuple. -/
def colDescOf (r : Row) : Column :=
  { name := valAsStr (rowAt r 1)
    type := valAsStr (rowAt r 2)
    notnull := valTruthy (rowAt r 3)
    pk := valTruthy (rowAt r 5) }

/-- A value of the Python dict returned by `get_table_schema`: on success
every value is a column-descriptor list, on failure the single value under
the key `"error"` is a string.  One type holds both because Python returns
both shapes as the same dict type — `get_database_info` iterates the keys
of either shape indiscriminately. -/
inductive SchemaVal where
  | cols (cs : List Column)
  | errStr (s : String)
deriving DecidableEq

/-- The dict returned by `get_table_schema`, as ordered key/value pairs. -/
abbrev SchemaDict := List (String × SchemaVal)

/-- The `for table in tables:` loop of `get_table_schema`: one
`PRAGMA table_info` per catalog name, building the descriptor list in
column-definition order; the first engine exception aborts the loop. -/
def reflectTables (E : Engine) : DB → List String → DB × Except PyExc SchemaDict
  | db, [] => (db, .ok [])
  | db, t :: rest =>
    match E.exec db (pragmaSQL t) with
    | (db, .error e) => (db, .error e)
    | (db, .ok (cols, _)) =>
      match reflectTables E db rest with
      | (db, .error e) => (db, .error e)
      | (db, .ok schema) => (db, .ok ((t, SchemaVal.cols (cols.map colDescOf)) :: schema))

/-- `get_table_schema()`: list the catalog's table names, then reflect each
table's columns; `except sqlite3.Error` replaces the whole result with the
single-entry dict `{"error": str(e)}`, while any other exception
propagates. -/
def get_table_schema (E : Engine) (db : DB) : DB × Except PyExc SchemaDict :=
  let db := { db with fileExists := true }
  match E.exec db sqlMaster with
  | (db, .error (.sqlite m)) => (db, .ok [("error", SchemaVal.errStr m)])
  | (db, .error e) => (db, .error e)
  | (db, .ok (trows, _)) =>
    match reflectTables E db (trows.map (fun r => valAsStr (rowAt r 0))) with
    | (db, .error (.sqlite m)) => (db, .ok [("error", SchemaVal.errStr m)])
    | (db, .error e) => (db, .error e)
    | (db, .ok schema) => (db, .ok schema)

/-- `text_to_sql(sql_query)`: run `init_database` when the file is missing —
this call precedes the `try` block, so its exceptions propagate — then run
`execute_sql_query` inside `try/except Exception`, wrapping either its
result or the caught exception's text into `{"query": ..., "results": ...}`. -/
def text_to_sql (E : Engine) (db : DB) (sql_query : String) :
    DB × Except PyExc (String × List Row) :=
  match (if db.fileExists then (db, Except.ok "") else init_database E db) with
  | (db, .error e) => (db, .error e)
  | (db, .ok _) =>
    match execute_sql_query E db sql_query with
    | (db, .ok results) => (db, .ok (sql_query, results))
    | (db, .error e) => (db, .ok (sql_query, [[("error", Val.str (excMsg e))]]))

/-- The value returned by `get_database_info`: the code only ever builds the
`info` form `{"schema": ..., "sample_data": ...}`; the `errRec` form
`{"error": ...}` is the error shape the specification claims for it. -/
inductive InfoResult where
  | info (schema : SchemaDict) (sample_data : List (String × List Row))
  | errRec (msg : String)
deriving DecidableEq

/-- The sample-data loop of `get_database_info`: for each schema key — the
`isinstance(table_name, str)` guard always holds, every key is a string —
run the Query Executor on `SELECT * FROM {t} LIMIT 3` inside a bare
`try/except: pass`, so only a raised exception skips the entry; an error
record returned normally by the Executor is stored like any result. -/
def sampleLoop (E : Engine) : DB → List String → DB × List (String × List Row)
  | db, [] => (db, [])
  | db, t :: rest =>
    match execute_sql_query E db (sampleSQL t) with
    | (db, .ok rows) =>
      let (db, rest') := sampleLoop E db rest
      (db, (t, rows) :: rest')
    | (db, .error _) =>
      sampleLoop E db rest

/-- `get_database_info()`: run `init_database` when the file is missing
(unguarded — exceptions propagate), reflect the schema, then collect up to
three sample rows per schema key; always returns the
`{"schema": ..., "sample_data": ...}` shape when it returns at all. -/
def get_database_info (E : Engine) (db : DB) : DB × Except PyExc InfoResult :=
  match (if db.fileExists then (db, Except.ok "") else init_database E db) with
  | (db, .error e) => (db, .error e)
  | (db, .ok _) =>
    match get_table_schema E db with
    | (db, .error e) => (db, .error e)
    | (db, .ok schema) =>
      let (db, sample) := sampleLoop E db (schema.map (fun p => p.1))
      (db, .ok (InfoResult.info schema sample))

/-! ## A concrete engine modelling SQLite on the statements the module issues

Behaviour and error texts were checked against SQLite via the sqlite3
binding; statements outside the modelled fragment answer with a generic
parse error, which is also a `sqlite3.Error`. -/

/-- A `PRAGMA table_info` result tuple
`(cid, name, type, notnull, dflt_value, pk)` for the `i`-th column. -/
def colRow (i : Nat) (c : Column) : Row :=
  [("cid", Val.int i), ("name", Val.str c.name), ("type", Val.str c.type),
   ("notnull", Val.int (if c.notnull then 1 else 0)), ("dflt_value", Val.null),
   ("pk", Val.int (if c.pk then 1 else 0))]

/-- If `q` is `pre ++ t ++ suf`, return `t` (used to recognise the module's
two f-string statement families). -/
def betweenArg? (q pre suf : String) : Option String :=
  let cs := q.toList
  let p := pre.toList
  let s := suf.toList
  if charsBegin cs p && charsBegin cs.reverse s.reverse && p.length + s.length ≤ cs.length then
    some (String.mk ((cs.drop p.length).take (cs.length - p.length - s.length)))
  else
    none

/-- Table names the module's unquoted f-string SQL cannot parse: SQL
keywords (the model carries `order`) and names starting with a digit
(SQLite accepts such names in the catalog and in `PRAGMA table_info`, but
an unquoted `SELECT * FROM 123` is a syntax error). -/
def sqlNameUnparsable (t : String) : Bool :=
  t == "order" || (t.toList.head?.map Char.isDigit).getD false

/-- The `products` table as its (valid) CREATE statement declares it. -/
def productsTable : Table :=
  { name := "products"
    cols := [{ name := "element", type := "INTEGER", notnull := false, pk := true },
             { name := "unit", type := "TEXT", notnull := true, pk := false },
             { name := "year", type := "INTEGER", notnull := false, pk := false }]
    rows := [] }

/-- `cursor.execute` of real SQLite on the modelled statement fragment,
with failures as bare error texts: the sqlite3 binding raises only
`sqlite3.Error` subclasses for a string statement, so the error class is
applied uniformly in `sqliteExec` below.  `cursor.rowcount` is -1 after
CREATE, SELECT and PRAGMA. -/
def sqliteExecCore (db : DB) (q : String) : DB × Except String (List Row × Int) :=
  if db.corrupt then
    (db, .error ("file is not a database"))
  else if q == sqlCreateCustomers then
    -- IF NOT EXISTS with an existing table is a silent no-op even for a
    -- malformed body; otherwise the duplicate column name `Area` is a
    -- parse error.
    if db.hasTable "customers" then (db, .ok ([], -1))
    else (db, .error ("duplicate column name: Area"))
  else if q == sqlCreateProducts then
    if db.hasTable "products" then (db, .ok ([], -1))
    else ({ db with tables := db.tables ++ [productsTable] }, .ok ([], -1))
  else if q == sqlCreateSales then
    if db.hasTable "sales" then (db, .ok ([], -1))
    else (db, .error ("unknown column \"area\" in foreign key definition"))
  else if q == sqlCreateUnit then
    if db.hasTable "unit" then (db, .ok ([], -1))
    else (db, .error ("unknown column \"element\" in foreign key definition"))
  else if q == sqlCountCustomers then
    match db.table? "customers" with
    | some t => (db, .ok ([[("COUNT(*)", Val.int t.rows.length)]], -1))
    | none => (db, .error ("no such table: customers"))
  else if q == "SELECT COUNT(*) AS c FROM customers" then
    match db.table? "customers" with
    | some t => (db, .ok ([[("c", Val.int t.rows.length)]], -1))
    | none => (db, .error ("no such table: customers"))
  else if q == sqlMaster then
    (db, .ok (db.tables.map (fun t => [("name", Val.str t.name)]), -1))
  else if q == "WITH t AS (SELECT 1 AS x) SELECT x FROM t" then
    (db, .ok ([[("x", Val.int 1)]], -1))
  else
    match betweenArg? q "PRAGMA table_info(" ")" with
    | some t =>
      if t == "order" then
        (db, .error ("near \"order\": syntax error"))
      else
        match db.table? t with
        | some tb => (db, .ok ((List.range tb.cols.length).zipWith colRow tb.cols, -1))
        | none => (db, .ok ([], -1))
    | none =>
    match betweenArg? q "SELECT * FROM " " LIMIT 3" with
    | some t =>
      if sqlNameUnparsable t then
        (db, .error (("near \"" ++ t ++ "\": syntax error")))
      else
        match db.table? t with
        | some tb => (db, .ok (tb.rows.take 3, -1))
        | none => (db, .error (("no such table: " ++ t)))
    | none =>
      (db, .error ("near \"?\": syntax error"))

/-- Does `t` have every column in `names`? -/
def hasCols (t : Table) (names : List String) : Bool :=
  names.all (fun n => t.cols.any (fun c => c.name == n))

/-- Append `params`, zipped against `colNames`, to table `tname`. -/
def insertRows (db : DB) (tname : String) (colNames : List String)
    (params : List (List Val)) : DB :=
  { db with
    tables := db.tables.map (fun t =>
      if t.name == tname then
        { t with rows := t.rows ++ params.map (fun vs => colNames.zip vs) }
      else t) }

/-- One `INSERT INTO t (cols...) VALUES (?...)` via `executemany`: fails
with `no such table` when `t` is absent, with `has no column named c` when
the first named column is missing (the seed INSERTs name columns absent
from every table the module's CREATEs declare), and otherwise inserts all
parameter rows, with `cursor.rowcount` the number inserted. -/
def sqliteInsertMany (db : DB) (tname : String) (colNames : List String)
    (params : List (List Val)) : DB × Except String Int :=
  match db.table? tname with
  | none => (db, .error (("no such table: " ++ tname)))
  | some t =>
    if hasCols t colNames then
      (insertRows db tname colNames params, .ok params.length)
    else
      (db, .error (("table " ++ tname ++ " has no column named " ++
        (colNames.head?.getD ""))))

/-- `cursor.executemany` of real SQLite on the four seed INSERT literals,
with failures as bare error texts. -/
def sqliteExecManyCore (db : DB) (q : String) (params : List (List Val)) :
    DB × Except String Int :=
  if db.corrupt then
    (db, .error ("file is not a database"))
  else if q == sqlInsertCustomers then
    sqliteInsertMany db "customers" ["name", "email", "phone", "address"] params
  else if q == sqlInsertProducts then
    sqliteInsertMany db "products" ["name", "description", "price", "stock_quantity"] params
  else if q == sqlInsertSales then
    sqliteInsertMany db "sales" ["customer_id", "sale_date", "total_amount"] params
  else if q == sqlInsertUnitItems then
    sqliteInsertMany db "unit_items" ["Area", "unit", "item", "year"] params
  else
    (db, .error ("near \"?\": syntax error"))

/-- `cursor.execute` of real SQLite: every failure raises a
`sqlite3.Error`. -/
def sqliteExec (db : DB) (q : String) : DB × Except PyExc (List Row × Int) :=
  match sqliteExecCore db q with
  | (db', .ok r) => (db', .ok r)
  | (db', .error m) => (db', .error (.sqlite m))

/-- `cursor.executemany` of real SQLite: every failure raises a
`sqlite3.Error`. -/
def sqliteExecMany (db : DB) (q : String) (params : List (List Val)) :
    DB × Except PyExc Int :=
  match sqliteExecManyCore db q params with
  | (db', .ok n) => (db', .ok n)
  | (db', .error m) => (db', .error (.sqlite m))

/-- The SQLite engine as the module drives it. -/
def sqliteE : Engine :=
  { exec := sqliteExec, execMany := sqliteExecMany }

/-! ## Concrete database states used to instantiate the theorems -/

/-- The state before any call when `DB_PATH` does not exist. -/
def dbFresh : DB := { fileExists := false, corrupt := false, tables := [] }

/-- The state after `sqlite3.connect` touched a fresh `DB_PATH`: the file
exists but holds no tables. -/
def dbTouched : DB := { fileExists := true, corrupt := false, tables := [] }

/-- `dbTouched` after a successful `CREATE TABLE products`. -/
def dbProds : DB := { fileExists := true, corrupt := false, tables := [productsTable] }

/-- A pre-existing `customers` table (as an externally created database
file could hold) with two rows. -/
def custTable : Table :=
  { name := "customers"
    cols := [{ name := "name", type := "TEXT", notnull := false, pk := false }]
    rows := [[("name", Val.str "a")], [("name", Val.str "b")]] }

/-- A database file holding only the `customers` table above. -/
def dbCust : DB := { fileExists := true, corrupt := false, tables := [custTable] }

/-- A table whose name starts with a digit: legal in SQLite when created
quoted, listed by the catalog and accepted by `PRAGMA table_info`, but the
module's unquoted `SELECT * FROM 123 LIMIT 3` is a syntax error. -/
def table123 : Table :=
  { name := "123"
    cols := [{ name := "a", type := "INTEGER", notnull := false, pk := false }]
    rows := [[("a", Val.int 7)]] }

/-- A database file holding `customers` and the digit-named table. -/
def db123 : DB := { fileExists := true, corrupt := false, tables := [custTable, table123] }

/-- A database file holding only the digit-named table. -/
def dbOnly123 : DB := { fileExists := true, corrupt := false, tables := [table123] }

/-- A file at `DB_PATH` that exists but is not a SQLite database: every
statement fails with `file is not a database`. -/
def dbCorrupt : DB := { fileExists := true, corrupt := true, tables := [] }

/-- A table with a SQL-keyword name (created quoted by an external tool):
listed by the catalog, but the module's unquoted `PRAGMA table_info(order)`
is a syntax error. -/
def orderTable : Table :=
  { name := "order"
    cols := [{ name := "a", type := "INTEGER", notnull := false, pk := false }]
    rows := [] }

/-- A database file holding only the keyword-named table. -/
def dbOrder : DB := { fileExists := true, corrupt := false, tables := [orderTable] }

/-- An engine raising a non-`sqlite3.Error` exception (as the Python driver
can, e.g. `MemoryError`): used to instantiate the outer `except Exception`
boundary of `text_to_sql`, which only such exceptions reach. -/
def flakyE : Engine :=
  { exec := fun db _ => (db, .error (.other "MemoryError")),
    execMany := fun db _ _ => (db, .error (.other "MemoryError")) }

/-- A row-returning statement whose stripped uppercase text does not begin
with `SELECT`. -/
def cteQuery : String := "WITH t AS (SELECT 1 AS x) SELECT x FROM t"

/-! ## Claims C1-C3 -/

/-- C1: the claim states that `init_database` is idempotent, never
duplicates seed rows and never errors, for every state of the database
file.  The code contradicts its own docstring ("Initialize the database
with sample tables") and return string: on a fresh (missing or empty)
database file the very first statement, `CREATE TABLE IF NOT EXISTS
customers (Area Abbreviation INTEGER PRIMARY KEY, Area TEXT NOT NULL, ...)`,
declares the column name `Area` twice and raises
`sqlite3.OperationalError: duplicate column name: Area`, uncaught, before
any seeding; a second call fails identically. -/
theorem c1_init_database_errors_on_fresh_file :
    init_database sqliteE dbFresh =
      (dbTouched, Except.error (PyExc.sqlite "duplicate column name: Area"))
    ∧ init_database sqliteE dbTouched =
      (dbTouched, Except.error (PyExc.sqlite "duplicate column name: Area")) :=
  ⟨rfl, rfl⟩

/-- C2: for a statement classified as a read (stripped uppercase text
beginning with `SELECT`), `execute_sql_query` returns the fetched rows,
each converted to a name-to-value mapping preserving column and row order
(possibly empty); for any other statement that the engine executes
successfully it returns exactly `[{"affected_rows": cursor.rowcount}]`
after committing. -/
theorem c2_execute_sql_query_result_shape
    (E : Engine) (db db' : DB) (q : String) (rows : List Row) (rc : Int)
    (h : E.exec { db with fileExists := true } q = (db', Except.ok (rows, rc))) :
    (isSelectQuery q = true →
      execute_sql_query E db q = (db', Except.ok (rows.map dictOfRow)))
    ∧ (isSelectQuery q = false →
      execute_sql_query E db q = (db', Except.ok [[("affected_rows", Val.int rc)]])) := by
  constructor <;> intro hs <;> simp [execute_sql_query, h, hs]

/-- Witness for C2: a concrete SELECT returns its rows; a concrete
non-SELECT (the products CREATE) returns the one-element affected-rows
record. -/
theorem c2_witness :
    sqliteE.exec { dbCust with fileExists := true } sqlCountCustomers =
        (dbCust, Except.ok ([[("COUNT(*)", Val.int 2)]], -1))
    ∧ isSelectQuery sqlCountCustomers = true
    ∧ execute_sql_query sqliteE dbCust sqlCountCustomers =
        (dbCust, Except.ok ([[("COUNT(*)", Val.int 2)]].map dictOfRow))
    ∧ sqliteE.exec { dbFresh with fileExists := true } sqlCreateProducts =
        (dbProds, Except.ok ([], -1))
    ∧ isSelectQuery sqlCreateProducts = false
    ∧ execute_sql_query sqliteE dbFresh sqlCreateProducts =
        (dbProds, Except.ok [[("affected_rows", Val.int (-1))]]) := by
  refine ⟨rfl, by decide, ?_, rfl, by decide, ?_⟩
  · exact (c2_execute_sql_query_result_shape sqliteE dbCust dbCust sqlCountCustomers
      [[("COUNT(*)", Val.int 2)]] (-1) rfl).1 (by decide)
  · exact (c2_execute_sql_query_result_shape sqliteE dbFresh dbProds sqlCreateProducts
      [] (-1) rfl).2 (by decide)

/-- Counterexample to C3: the `init_database()` call in `text_to_sql` is
made before the `try` block, so when the database file is missing the
Initializer's exception propagates to the caller instead of being rendered
as an error record. -/
theorem c3_counterexample_init_exception_propagates :
    text_to_sql sqliteE dbFresh "SELECT 1" =
      (dbTouched, Except.error (PyExc.sqlite "duplicate column name: Area")) :=
  rfl

/-- C3 (amended): exceptions raised by `execute_sql_query` are caught by
the facade's `except Exception` and rendered as an error record inside the
returned `{query, results}` mapping; but the Initializer call precedes the
`try` block, so when the database file is missing an Initializer exception
propagates to the caller. -/
theorem c3_amended_outer_boundary (E : Engine) (db : DB) (q : String) :
    (∀ (db' : DB) (e : PyExc), db.fileExists = true →
      execute_sql_query E db q = (db', Except.error e) →
      text_to_sql E db q = (db', Except.ok (q, [[("error", Val.str (excMsg e))]])))
    ∧ (∀ (db' : DB) (e : PyExc), db.fileExists = false →
      init_database E db = (db', Except.error e) →
      text_to_sql E db q = (db', Except.error e)) := by
  constructor
  · intro db' e hfe hex
    simp [text_to_sql, hfe, hex]
  · intro db' e hfe hinit
    simp [text_to_sql, hfe, hinit]

/-- Witness for C3 (amended): a non-sqlite engine exception is caught and
rendered; the Initializer's exception on a missing file propagates. -/
theorem c3_witness :
    (dbCust.fileExists = true
      ∧ execute_sql_query flakyE dbCust "SELECT name FROM customers" =
          (dbCust, Except.error (PyExc.other "MemoryError"))
      ∧ text_to_sql flakyE dbCust "SELECT name FROM customers" =
          (dbCust, Except.ok ("SELECT name FROM customers",
            [[("error", Val.str "MemoryError")]])))
    ∧ (dbFresh.fileExists = false
      ∧ init_database sqliteE dbFresh =
          (dbTouched, Except.error (PyExc.sqlite "duplicate column name: Area"))
      ∧ text_to_sql sqliteE dbFresh "SELECT name FROM customers" =
          (dbTouched, Except.error (PyExc.sqlite "duplicate column name: Area"))) := by
  refine ⟨⟨rfl, rfl, ?_⟩, ⟨rfl, rfl, ?_⟩⟩
  · exact (c3_amended_outer_boundary flakyE dbCust "SELECT name FROM customers").1
      dbCust (PyExc.other "MemoryError") rfl rfl
  · exact (c3_amended_outer_boundary sqliteE dbFresh "SELECT name FROM customers").2
      dbTouched (PyExc.sqlite "duplicate column name: Area") rfl rfl

/-! ## Claims C4-C7 -/

/-- Counterexample to C4: a table whose sample fetch fails is NOT silently
skipped.  With a digit-named table (listed by the catalog and reflected
fine, but unparsable in the unquoted `SELECT * FROM 123 LIMIT 3`), the
Query Executor converts the engine error into a normally returned error
record, so the bare `except: pass` never fires and `sample_data` gains an
entry for the failing table recording the failure. -/
theorem c4_counterexample_failed_fetch_not_skipped :
    get_database_info sqliteE db123 =
      (db123, Except.ok (InfoResult.info
        [("customers", SchemaVal.cols
            [{ name := "name", type := "TEXT", notnull := false, pk := false }]),
         ("123", SchemaVal.cols
            [{ name := "a", type := "INTEGER", notnull := false, pk := false }])]
        [("customers", [[("name", Val.str "a")], [("name", Val.str "b")]]),
         ("123", [[("error", Val.str "near \"123\": syntax error")]])])) :=
  rfl

/-- The sample-data loop collects, over an arbitrary key list and in key
order, one entry per key whose Executor call returns normally (error
records included), skipping exactly the keys whose call raises. -/
theorem sampleLoop_entries (E : Engine) (db : DB) (keys : List String)
    (g : String → Except PyExc (List Row))
    (h : ∀ t ∈ keys, execute_sql_query E db (sampleSQL t) = (db, g t)) :
    sampleLoop E db keys =
      (db, keys.filterMap (fun t =>
        match g t with
        | Except.ok rows => some (t, rows)
        | Except.error _ => none)) := by
  induction keys with
  | nil => rfl
  | cons t rest ih =>
    have ht := h t (List.mem_cons_self t rest)
    have hrest := ih (fun s hs => h s (List.mem_cons_of_mem t hs))
    cases hgt : g t with
    | ok rows => simp [sampleLoop, ht, hgt, hrest]
    | error e => simp [sampleLoop, ht, hgt, hrest]

/-- C4 (amended): for every string-keyed table name in the schema mapping —
however many there are — the Query Executor is run on its sample query and
every normally returned result is collected under that table name in key
order; but a table whose sample fetch fails at engine level is not
skipped: the Executor converts the engine error into a normally returned
one-element error record (first conjunct), so the per-table `except: pass`
never fires for it and `sample_data` contains that table mapped to the
error record (third conjunct). -/
theorem c4_amended_failed_fetch_stored_as_error_record
    (E : Engine) (db db2 : DB) (schema : SchemaDict)
    (g : String → Except PyExc (List Row))
    (hfe : db.fileExists = true)
    (hschema : get_table_schema E db = (db2, Except.ok schema))
    (hfetch : ∀ t ∈ schema.map (fun p => p.1),
      execute_sql_query E db2 (sampleSQL t) = (db2, g t)) :
    (∀ (db' : DB) (t m : String),
      E.exec { db2 with fileExists := true } (sampleSQL t) =
          (db', Except.error (PyExc.sqlite m)) →
      execute_sql_query E db2 (sampleSQL t) = (db', Except.ok [[("error", Val.str m)]]))
    ∧ get_database_info E db =
        (db2, Except.ok (InfoResult.info schema
          ((schema.map (fun p => p.1)).filterMap (fun t =>
            match g t with
            | Except.ok rows => some (t, rows)
            | Except.error _ => none))))
    ∧ (∀ t ∈ schema.map (fun p => p.1), ∀ m : String,
        g t = Except.ok [[("error", Val.str m)]] →
        (t, [[("error", Val.str m)]]) ∈
          (schema.map (fun p => p.1)).filterMap (fun t =>
            match g t with
            | Except.ok rows => some (t, rows)
            | Except.error _ => none)) := by
  refine ⟨?_, ?_, ?_⟩
  · intro db' t m h
    simp [execute_sql_query, h]
  · have hloop := sampleLoop_entries E db2 (schema.map (fun p => p.1)) g hfetch
    simp [get_database_info, hfe, hschema, hloop]
  · intro t ht m hg
    exact List.mem_filterMap.2 ⟨t, ht, by simp [hg]⟩

/-- Witness for C4 (amended): a two-table schema in which the `customers`
sample succeeds and the digit-named table's sample fails at engine level;
the failing table's entry is present, mapped to the error record. -/
theorem c4_witness :
    db123.fileExists = true
    ∧ get_table_schema sqliteE db123 = (db123, Except.ok
        [("customers", SchemaVal.cols
            [{ name := "name", type := "TEXT", notnull := false, pk := false }]),
         ("123", SchemaVal.cols
            [{ name := "a", type := "INTEGER", notnull := false, pk := false }])])
    ∧ execute_sql_query sqliteE db123 (sampleSQL "customers") =
        (db123, Except.ok [[("name", Val.str "a")], [("name", Val.str "b")]])
    ∧ execute_sql_query sqliteE db123 (sampleSQL "123") =
        (db123, Except.ok [[("error", Val.str "near \"123\": syntax error")]])
    ∧ get_database_info sqliteE db123 =
        (db123, Except.ok (InfoResult.info
          [("customers", SchemaVal.cols
              [{ name := "name", type := "TEXT", notnull := false, pk := false }]),
           ("123", SchemaVal.cols
              [{ name := "a", type := "INTEGER", notnull := false, pk := false }])]
          [("customers", [[("name", Val.str "a")], [("name", Val.str "b")]]),
           ("123", [[("error", Val.str "near \"123\": syntax error")]])]))
    ∧ ("123", [[("error", Val.str "near \"123\": syntax error")]]) ∈
        [("customers", ([[("name", Val.str "a")], [("name", Val.str "b")]] : List Row)),
         ("123", [[("error", Val.str "near \"123\": syntax error")]])] := by
  have hfetch : ∀ t ∈ ([("customers", SchemaVal.cols
        [{ name := "name", type := "TEXT", notnull := false, pk := false }]),
       ("123", SchemaVal.cols
        [{ name := "a", type := "INTEGER", notnull := false, pk := false }])] :
          SchemaDict).map (fun p => p.1),
      execute_sql_query sqliteE db123 (sampleSQL t) =
        (db123, (fun s => if s == "customers" then
            (Except.ok [[("name", Val.str "a")], [("name", Val.str "b")]] :
              Except PyExc (List Row))
          else Except.ok [[("error", Val.str "near \"123\": syntax error")]]) t) := by
    intro t ht
    have h1 : t = "customers" ∨ t = "123" := by simpa using ht
    rcases h1 with rfl | rfl
    · rfl
    · rfl
  have h := c4_amended_failed_fetch_stored_as_error_record sqliteE db123 db123
    [("customers", SchemaVal.cols
        [{ name := "name", type := "TEXT", notnull := false, pk := false }]),
     ("123", SchemaVal.cols
        [{ name := "a", type := "INTEGER", notnull := false, pk := false }])]
    (fun s => if s == "customers" then
        (Except.ok [[("name", Val.str "a")], [("name", Val.str "b")]] :
          Except PyExc (List Row))
      else Except.ok [[("error", Val.str "near \"123\": syntax error")]])
    rfl rfl hfetch
  refine ⟨rfl, rfl, rfl, rfl, h.2.1, ?_⟩
  have hmem := h.2.2 "123" (by simp) "near \"123\": syntax error" rfl
  exact hmem

/-- The reflection loop succeeds tablewise: if every catalog name's
`PRAGMA table_info` succeeds without touching the state, the loop returns
the per-table descriptor lists in catalog order. -/
theorem reflectTables_all_ok (E : Engine) (db1 : DB) (names : List String)
    (cols : String → List Row)
    (h : ∀ t ∈ names, E.exec db1 (pragmaSQL t) = (db1, Except.ok (cols t, -1))) :
    reflectTables E db1 names =
      (db1, Except.ok (names.map (fun t =>
        (t, SchemaVal.cols ((cols t).map colDescOf))))) := by
  induction names with
  | nil => rfl
  | cons t rest ih =>
    have ht := h t (List.mem_cons_self t rest)
    have hrest := ih (fun s hs => h s (List.mem_cons_of_mem t hs))
    simp [reflectTables, ht, hrest]

/-- C5: on success `get_table_schema` returns a mapping whose keys are
exactly the catalog's table names in catalog order, each mapped to its
`{name, type, notnull, pk}` descriptors in column-definition order; when
the catalog query fails with an engine error it instead returns the single
error record `{"error": text}` in place of the schema mapping. -/
theorem c5_get_table_schema_shape (E : Engine) (db : DB) :
    (∀ (db1 : DB) (trows : List Row) (rc : Int) (cols : String → List Row),
      E.exec { db with fileExists := true } sqlMaster = (db1, Except.ok (trows, rc)) →
      (∀ t ∈ trows.map (fun r => valAsStr (rowAt r 0)),
        E.exec db1 (pragmaSQL t) = (db1, Except.ok (cols t, -1))) →
      get_table_schema E db =
        (db1, Except.ok ((trows.map (fun r => valAsStr (rowAt r 0))).map
          (fun t => (t, SchemaVal.cols ((cols t).map colDescOf))))))
    ∧ (∀ (db1 : DB) (m : String),
      E.exec { db with fileExists := true } sqlMaster =
          (db1, Except.error (PyExc.sqlite m)) →
      get_table_schema E db = (db1, Except.ok [("error", SchemaVal.errStr m)]))
    ∧ (∀ (db1 db2 : DB) (trows : List Row) (rc : Int) (m : String),
      E.exec { db with fileExists := true } sqlMaster = (db1, Except.ok (trows, rc)) →
      reflectTables E db1 (trows.map (fun r => valAsStr (rowAt r 0))) =
          (db2, Except.error (PyExc.sqlite m)) →
      get_table_schema E db = (db2, Except.ok [("error", SchemaVal.errStr m)])) := by
  refine ⟨?_, ?_, ?_⟩
  · intro db1 trows rc cols hmaster hpragma
    have hloop := reflectTables_all_ok E db1
      (trows.map (fun r => valAsStr (rowAt r 0))) cols hpragma
    simp [get_table_schema, hmaster, hloop]
  · intro db1 m hmaster
    simp [get_table_schema, hmaster]
  · intro db1 db2 trows rc m hmaster hloop
    simp [get_table_schema, hmaster, hloop]

/-- Witness for C5: success on a one-table database; the error record when
the catalog query fails (a file that is not a database) and when a
per-table PRAGMA fails (a keyword-named table). -/
theorem c5_witness :
    sqliteE.exec { dbCust with fileExists := true } sqlMaster =
        (dbCust, Except.ok ([[("name", Val.str "customers")]], -1))
    ∧ get_table_schema sqliteE dbCust =
        (dbCust, Except.ok [("customers", SchemaVal.cols
          [{ name := "name", type := "TEXT", notnull := false, pk := false }])])
    ∧ sqliteE.exec { dbCorrupt with fileExists := true } sqlMaster =
        (dbCorrupt, Except.error (PyExc.sqlite "file is not a database"))
    ∧ get_table_schema sqliteE dbCorrupt =
        (dbCorrupt, Except.ok [("error", SchemaVal.errStr "file is not a database")])
    ∧ sqliteE.exec { dbOrder with fileExists := true } sqlMaster =
        (dbOrder, Except.ok ([[("name", Val.str "order")]], -1))
    ∧ reflectTables sqliteE dbOrder
        (([[("name", Val.str "order")]] : List Row).map (fun r => valAsStr (rowAt r 0))) =
        (dbOrder, Except.error (PyExc.sqlite "near \"order\": syntax error"))
    ∧ get_table_schema sqliteE dbOrder =
        (dbOrder, Except.ok [("error", SchemaVal.errStr "near \"order\": syntax error")]) := by
  refine ⟨rfl, ?_, rfl, ?_, rfl, rfl, ?_⟩
  · have hp : ∀ t ∈ ([[("name", Val.str "customers")]] : List Row).map
        (fun r => valAsStr (rowAt r 0)),
        sqliteE.exec dbCust (pragmaSQL t) =
          (dbCust, Except.ok ((fun _ : String => [colRow 0
            { name := "name", type := "TEXT", notnull := false, pk := false }]) t, -1)) := by
      intro t ht
      have h1 : t = "customers" := by simpa using ht
      subst h1
      rfl
    exact (c5_get_table_schema_shape sqliteE dbCust).1 dbCust
      [[("name", Val.str "customers")]] (-1) _ rfl hp
  · exact (c5_get_table_schema_shape sqliteE dbCorrupt).2.1 dbCorrupt
      "file is not a database" rfl
  · exact (c5_get_table_schema_shape sqliteE dbOrder).2.2 dbOrder dbOrder
      [[("name", Val.str "order")]] (-1) "near \"order\": syntax error" rfl rfl

/-- Counterexample to C6: when schema reflection fails,
`get_database_info` still returns the normal `{schema, sample_data}`
shape — the error record appears nested as the schema value (and the
literal key `"error"` is then treated as a table name to sample), not as a
top-level error record. -/
theorem c6_counterexample_schema_failure_keeps_info_shape :
    get_database_info sqliteE dbCorrupt =
      (dbCorrupt, Except.ok (InfoResult.info
        [("error", SchemaVal.errStr "file is not a database")]
        [("error", [[("error", Val.str "file is not a database")]])])) :=
  rfl

/-- C6 (amended): when schema reflection fails with an engine error,
`get_database_info` returns the `{schema, sample_data}` shape with
`{"error": text}` nested as the schema dict, never the claimed top-level
`{error: text}` shape. -/
theorem c6_amended_schema_error_nested_in_info
    (E : Engine) (db db1 db2 : DB) (m m2 : String)
    (hfe : db.fileExists = true)
    (hmaster : E.exec { db with fileExists := true } sqlMaster =
      (db1, Except.error (PyExc.sqlite m)))
    (hfetch : E.exec { db1 with fileExists := true } (sampleSQL "error") =
      (db2, Except.error (PyExc.sqlite m2))) :
    get_database_info E db =
      (db2, Except.ok (InfoResult.info [("error", SchemaVal.errStr m)]
        [("error", [[("error", Val.str m2)]])]))
    ∧ ∀ s, get_database_info E db ≠ (db2, Except.ok (InfoResult.errRec s)) := by
  have hschema : get_table_schema E db = (db1, Except.ok [("error", SchemaVal.errStr m)]) := by
    simp [get_table_schema, hmaster]
  have h1 : get_database_info E db =
      (db2, Except.ok (InfoResult.info [("error", SchemaVal.errStr m)]
        [("error", [[("error", Val.str m2)]])])) := by
    simp [get_database_info, hfe, hschema, sampleLoop, execute_sql_query, hfetch]
  refine ⟨h1, ?_⟩
  intro s hcontra
  rw [h1] at hcontra
  simp at hcontra

/-- Witness for C6 (amended): a file at `DB_PATH` that is not a SQLite
database. -/
theorem c6_witness :
    dbCorrupt.fileExists = true
    ∧ sqliteE.exec { dbCorrupt with fileExists := true } sqlMaster =
        (dbCorrupt, Except.error (PyExc.sqlite "file is not a database"))
    ∧ sqliteE.exec { dbCorrupt with fileExists := true } (sampleSQL "error") =
        (dbCorrupt, Except.error (PyExc.sqlite "file is not a database"))
    ∧ get_database_info sqliteE dbCorrupt =
        (dbCorrupt, Except.ok (InfoResult.info
          [("error", SchemaVal.errStr "file is not a database")]
          [("error", [[("error", Val.str "file is not a database")]])])) := by
  refine ⟨rfl, rfl, rfl, ?_⟩
  exact (c6_amended_schema_error_nested_in_info sqliteE dbCorrupt dbCorrupt dbCorrupt
    "file is not a database" "file is not a database" rfl rfl rfl).1

/-- Every failure of the modelled SQLite engine is a `sqlite3.Error`
(empirically, the sqlite3 binding raises only `sqlite3.Error` subclasses
for a string statement, ProgrammingError included). -/
theorem sqliteExec_error_is_sqlite (db : DB) (q : String) :
    (∃ db' r, sqliteExec db q = (db', Except.ok r))
    ∨ (∃ db' m, sqliteExec db q = (db', Except.error (PyExc.sqlite m))) := by
  rcases h : sqliteExecCore db q with ⟨db', m | r⟩
  · exact Or.inr ⟨db', m, by simp [sqliteExec, h]⟩
  · exact Or.inl ⟨db', r, by simp [sqliteExec, h]⟩

/-- C7: `execute_sql_query` never lets an engine exception escape: against
the SQLite engine it returns normally on every input SQL string, and
whenever the engine fails with a `sqlite3.Error` the result is the
one-element sequence `[{"error": str(e)}]`. -/
theorem c7_execute_sql_query_never_raises (db : DB) (q : String) :
    (∃ db' out, execute_sql_query sqliteE db q = (db', Except.ok out))
    ∧ (∀ (db' : DB) (m : String),
      sqliteE.exec { db with fileExists := true } q =
          (db', Except.error (PyExc.sqlite m)) →
      execute_sql_query sqliteE db q = (db', Except.ok [[("error", Val.str m)]])) := by
  constructor
  · rcases sqliteExec_error_is_sqlite { db with fileExists := true } q with
      ⟨db', ⟨rows, rc⟩, h⟩ | ⟨db', m, h⟩
    · refine ⟨db', if isSelectQuery q then rows.map dictOfRow
        else [[("affected_rows", Val.int rc)]], ?_⟩
      by_cases hs : isSelectQuery q <;> simp [execute_sql_query, sqliteE, h, hs]
    · exact ⟨db', [[("error", Val.str m)]], by simp [execute_sql_query, sqliteE, h]⟩
  · intro db' m h
    simp [execute_sql_query, h]

/-- Witness for C7: an invalid statement (no `customers` table) is caught
and converted to the error record. -/
theorem c7_witness :
    sqliteE.exec { dbTouched with fileExists := true } sqlCountCustomers =
        (dbTouched, Except.error (PyExc.sqlite "no such table: customers"))
    ∧ execute_sql_query sqliteE dbTouched sqlCountCustomers =
        (dbTouched, Except.ok [[("error", Val.str "no such table: customers")]]) := by
  exact ⟨rfl, (c7_execute_sql_query_never_raises dbTouched sqlCountCustomers).2
    dbTouched "no such table: customers" rfl⟩

/-! ## Claims C8-C10 -/

/-- C8: the claim states the seed-count scenario: `SELECT COUNT(*) AS c
FROM customers` right after a fresh initialization returns the seed row
count (the Initializer's literal holds five customer rows).  The code
cannot deliver it: on a fresh database file initialization aborts with
`duplicate column name: Area` before creating `customers` or inserting any
seed row, so the scenario query afterwards returns the error record
`no such table: customers` instead of a count row. -/
theorem c8_seed_count_scenario_fails :
    init_database sqliteE dbFresh =
        (dbTouched, Except.error (PyExc.sqlite "duplicate column name: Area"))
    ∧ execute_sql_query sqliteE dbTouched "SELECT COUNT(*) AS c FROM customers" =
        (dbTouched, Except.ok [[("error", Val.str "no such table: customers")]])
    ∧ seedCustomers.length = 5 :=
  ⟨rfl, rfl, rfl⟩

/-- C9: for every statement not classified as a read, the returned
`affected_rows` value is the engine's raw `cursor.rowcount`, and for DDL
such as the products CREATE that raw value is -1, so the affected-row
count exposed at the public interface can be negative. -/
theorem c9_affected_rows_is_raw_rowcount :
    (∀ (E : Engine) (db db' : DB) (q : String) (rows : List Row) (rc : Int),
      E.exec { db with fileExists := true } q = (db', Except.ok (rows, rc)) →
      isSelectQuery q = false →
      execute_sql_query E db q = (db', Except.ok [[("affected_rows", Val.int rc)]]))
    ∧ execute_sql_query sqliteE dbFresh sqlCreateProducts =
        (dbProds, Except.ok [[("affected_rows", Val.int (-1))]])
    ∧ (-1 : Int) < 0 := by
  refine ⟨?_, rfl, by decide⟩
  intro E db db' q rows rc h hs
  simp [execute_sql_query, h, hs]

/-- Witness for C9: the products CREATE statement executes with
`cursor.rowcount = -1`, and that raw -1 is what the caller receives. -/
theorem c9_witness :
    sqliteE.exec { dbFresh with fileExists := true } sqlCreateProducts =
        (dbProds, Except.ok ([], -1))
    ∧ isSelectQuery sqlCreateProducts = false
    ∧ execute_sql_query sqliteE dbFresh sqlCreateProducts =
        (dbProds, Except.ok [[("affected_rows", Val.int (-1))]]) := by
  exact ⟨rfl, by decide, c9_affected_rows_is_raw_rowcount.1 sqliteE dbFresh dbProds
    sqlCreateProducts [] (-1) rfl (by decide)⟩

/-- C10: read classification is by prefix only: a row-returning statement
whose stripped uppercase text does not begin with `SELECT` — here a
`WITH ... SELECT` query, and likewise any `PRAGMA` — has its fetched rows
discarded; `execute_sql_query` commits and returns the one-element
affected-rows shape instead of the rows the engine produced. -/
theorem c10_prefix_only_classification :
    (∀ (E : Engine) (db db' : DB) (q : String) (rows : List Row) (rc : Int),
      E.exec { db with fileExists := true } q = (db', Except.ok (rows, rc)) →
      isSelectQuery q = false →
      execute_sql_query E db q = (db', Except.ok [[("affected_rows", Val.int rc)]]))
    ∧ isSelectQuery cteQuery = false
    ∧ isSelectQuery "PRAGMA table_info(customers)" = false
    ∧ sqliteE.exec dbCust cteQuery = (dbCust, Except.ok ([[("x", Val.int 1)]], -1))
    ∧ execute_sql_query sqliteE dbCust cteQuery =
        (dbCust, Except.ok [[("affected_rows", Val.int (-1))]]) := by
  refine ⟨?_, by decide, by decide, rfl, rfl⟩
  intro E db db' q rows rc h hs
  simp [execute_sql_query, h, hs]

/-- Witness for C10: the `WITH ... SELECT` query, whose result row the
engine returned and the Executor discarded. -/
theorem c10_witness :
    sqliteE.exec { dbCust with fileExists := true } cteQuery =
        (dbCust, Except.ok ([[("x", Val.int 1)]], -1))
    ∧ execute_sql_query sqliteE dbCust cteQuery =
        (dbCust, Except.ok [[("affected_rows", Val.int (-1))]]) := by
  exact ⟨rfl, c10_prefix_only_classification.1 sqliteE dbCust dbCust cteQuery
    [[("x", Val.int 1)]] (-1) rfl (by decide)⟩

end DatabaseTools
